import Mathlib

/-!
Shallow embedding of the clyent library (ApiService and createApiClient)
from the TypeScript source. JavaScript objects whose keys matter to the
semantics (Axios request configs, endpoint maps, the composed service
client, and the resulting client) are modelled as association lists from
String keys to values, with JavaScript property-assignment semantics:
assigning an existing key replaces its value in place, assigning a fresh
key appends it. Interceptor hooks are opaque values identified by a Nat;
the Axios instance records its construction config and the ordered lists
of registered request and response interceptor pairs, mirroring the part
of the Axios contract the library uses. Endpoint factories may throw, so
they return Except; createApiClient itself, which performs no catching,
is embedded in Except as well.
-/

namespace Clyent

/-- An opaque JavaScript value stored under a config key. The baseURL key
holds a string; other keys are opaque to the library. -/
inductive JSValue where
  | str : String → JSValue
  | num : Int → JSValue
  | boolean : Bool → JSValue
deriving DecidableEq, Repr

/-- An Axios request configuration object: an association list of
top-level keys to values (shallow structure is all the library touches). -/
abbrev Config := List (String × JSValue)

/-- JavaScript property read: first binding of the key wins (keys are
unique in maps built by setField). -/
def getField {α : Type} : List (String × α) → String → Option α
  | [], _ => none
  | (k0, v0) :: rest, k => if k0 = k then some v0 else getField rest k

/-- JavaScript property assignment: replace the first binding of the key
in place, or append the key when absent. -/
def setField {α : Type} : List (String × α) → String → α → List (String × α)
  | [], k, v => [(k, v)]
  | (k0, v0) :: rest, k, v =>
    if k0 = k then (k, v) :: rest else (k0, v0) :: setField rest k v

/-- Object spread: copy every entry of src into m in order, later entries
overriding earlier bindings of the same key. -/
def spreadInto (m : Config) (src : Config) : Config :=
  src.foldl (fun acc p => setField acc p.1 p.2) m

/-- The binding a spread source contributes for a key: the last entry with
that key, if any. -/
def lookupLast : Config → String → Option JSValue
  | [], _ => none
  | (k0, v0) :: rest, k =>
    match lookupLast rest k with
    | some v => some v
    | none => if k0 = k then some v0 else none

/-- An interceptor hook (a JavaScript function), identified opaquely. -/
abbrev Hook := Nat

/-- One interceptor slot: optional onFulfilled and onRejected hooks. -/
structure InterceptorPair where
  onFulfilled : Option Hook
  onRejected : Option Hook
deriving DecidableEq, Repr

/-- Interceptors: optional request and response slots, as in the source. -/
structure Interceptors where
  request : Option InterceptorPair
  response : Option InterceptorPair
deriving DecidableEq, Repr

/-- Errors a JavaScript computation can throw. The source defines no error
classes of its own and only ever lets raw thrown values escape; the named
constructors exist so that statements about the error classes named by the
specification (InvalidConfigError, EndpointFactoryError) can be expressed. -/
inductive JSError where
  | raw : String → JSError
  | invalidConfigError : String → JSError
  | endpointFactoryError : JSError → JSError
deriving DecidableEq, Repr

/-- The part of an Axios instance the library observes: the config it was
created with and the ordered registration lists of request and response
interceptors. Each use call appends one (onFulfilled, onRejected) pair;
Axios accepts an absent hook in either position. -/
structure AxiosInstance where
  config : Config
  requestHandlers : List (Option Hook × Option Hook)
  responseHandlers : List (Option Hook × Option Hook)
deriving DecidableEq, Repr

/-- axios.create: a fresh instance with the given config and no
interceptors registered. -/
def axiosCreate (c : Config) : AxiosInstance :=
  { config := c, requestHandlers := [], responseHandlers := [] }

/-- instance.interceptors.request.use(onFulfilled, onRejected): appends the
pair; either hook may be absent. -/
def AxiosInstance.useRequest (i : AxiosInstance) (f r : Option Hook) : AxiosInstance :=
  { i with requestHandlers := i.requestHandlers ++ [(f, r)] }

/-- instance.interceptors.response.use(onFulfilled, onRejected): appends
the pair; either hook may be absent. -/
def AxiosInstance.useResponse (i : AxiosInstance) (f r : Option Hook) : AxiosInstance :=
  { i with responseHandlers := i.responseHandlers ++ [(f, r)] }

/-- An endpoint map: endpoint names to opaque endpoint functions
(identified by a Nat). -/
abbrev EndpointMap := List (String × Nat)

/-- The configuration record accepted by the ApiService constructor
(ApiServiceConfig in the source); optional fields are Options. -/
structure ApiServiceConfig where
  name : String
  baseUrl : Option String
  config : Option Config
  interceptors : Option Interceptors
  endpoints : AxiosInstance → Except JSError EndpointMap

/-- The ApiService class: fields as stored by the constructor. -/
structure ApiService where
  name : String
  baseUrl : String
  config : Config
  interceptors : Option Interceptors
  build : AxiosInstance → Except JSError EndpointMap

/-- The ApiService constructor. A JavaScript constructor may throw, so it
is embedded in Except; the source body only assigns fields (name as given,
baseUrl defaulting to the empty string, config defaulting to the empty
object) and contains no validation and no throw, so it always succeeds. -/
def ApiService.ofConfig (cfg : ApiServiceConfig) : Except JSError ApiService :=
  Except.ok
    { name := cfg.name
      baseUrl := cfg.baseUrl.getD ""
      config := cfg.config.getD []
      interceptors := cfg.interceptors
      build := cfg.endpoints }

/-- Initialization options for createApiClient (ApiClientConfig in the
source), with services as an ordered key-to-service mapping (for..in
iterates string keys in insertion order). -/
structure ApiClientConfig where
  config : Option Config
  interceptors : Option Interceptors
  services : List (String × ApiService)

/-- A value stored in a composed service client object: an endpoint
function, or one of the metadata fields. -/
inductive FieldVal where
  | endpoint : Nat → FieldVal
  | str : String → FieldVal
  | cfg : Config → FieldVal
  | ixs : Option Interceptors → FieldVal
  | inst : AxiosInstance → FieldVal
deriving DecidableEq, Repr

/-- A composed service client: a JavaScript object mixing endpoint
functions and metadata fields. -/
abbrev ObjMap := List (String × FieldVal)

/-- The client object returned by createApiClient: service name to
composed service client. -/
abbrev Client := List (String × ObjMap)

/-- The merged Axios config for one service, from the object literal
with spreads at lines 250-254 of the source: the derived baseURL entry,
overlaid by the global config, overlaid by the service config. -/
def serviceAxiosConfig (rootUrl : String) (globalConfig : Config) (service : ApiService) : Config :=
  spreadInto (spreadInto [("baseURL", JSValue.str (rootUrl ++ service.baseUrl))] globalConfig)
    service.config

/-- Register one interceptor set on an instance exactly as the source
does for each set: if the request slot object is present, call request.use
with its two (possibly absent) hooks, then the same for the response slot.
The non-null assertion on onFulfilled in the source is erased at runtime,
so an absent hook is passed through unchanged. -/
def registerIxs (inst : AxiosInstance) (ixs : Option Interceptors) : AxiosInstance :=
  let inst1 :=
    match ixs.bind Interceptors.request with
    | some p => inst.useRequest p.onFulfilled p.onRejected
    | none => inst
  match ixs.bind Interceptors.response with
  | some p => inst1.useResponse p.onFulfilled p.onRejected
  | none => inst1

/-- The Axios instance created for one service during assembly: created
from the merged config, then global interceptors registered, then
service-level interceptors registered. -/
def setupInstance (rootUrl : String) (globalConfig : Config) (globalIxs : Option Interceptors)
    (service : ApiService) : AxiosInstance :=
  registerIxs (registerIxs (axiosCreate (serviceAxiosConfig rootUrl globalConfig service)) globalIxs)
    service.interceptors

/-- Compose the service client object: spread the endpoint map, then
assign the metadata fields baseUrl, config, interceptors, instance in
source order (later assignments override colliding endpoint keys). -/
def mkSvcClient (endpoints : EndpointMap) (service : ApiService) (axiosConfig : Config)
    (handle : AxiosInstance) : ObjMap :=
  let base := endpoints.foldl (fun m p => setField m p.1 (FieldVal.endpoint p.2)) []
  let m1 := setField base "baseUrl" (FieldVal.str service.baseUrl)
  let m2 := setField m1 "config" (FieldVal.cfg axiosConfig)
  let m3 := setField m2 "interceptors" (FieldVal.ixs service.interceptors)
  setField m3 "instance" (FieldVal.inst handle)

/-- One iteration of the createApiClient loop body for a single service:
merge config, create and configure the instance, invoke the endpoint
factory (whose thrown error, if any, propagates uncaught), and compose
the service client. -/
def buildService (rootUrl : String) (globalConfig : Config) (globalIxs : Option Interceptors)
    (service : ApiService) : Except JSError ObjMap :=
  let axiosConfig := serviceAxiosConfig rootUrl globalConfig service
  let handle := setupInstance rootUrl globalConfig globalIxs service
  match service.build handle with
  | Except.error e => Except.error e
  | Except.ok endpoints => Except.ok (mkSvcClient endpoints service axiosConfig handle)

/-- The for..in loop of createApiClient over the services, threading the
client object being built; a thrown error aborts the whole loop. -/
def assembleLoop (rootUrl : String) (globalConfig : Config) (globalIxs : Option Interceptors) :
    List (String × ApiService) → Client → Except JSError Client
  | [], client => Except.ok client
  | kv :: rest, client =>
    match buildService rootUrl globalConfig globalIxs kv.2 with
    | Except.error e => Except.error e
    | Except.ok svcClient =>
      assembleLoop rootUrl globalConfig globalIxs rest (setField client kv.2.name svcClient)

/-- createApiClient: defaults the global config to the empty object and
runs the assembly loop starting from an empty client object. -/
def createApiClient (rootUrl : String) (init : ApiClientConfig) : Except JSError Client :=
  assembleLoop rootUrl (init.config.getD []) init.interceptors init.services []

/-- The list of keys of the returned client object (empty when assembly
threw). -/
def clientKeys : Except JSError Client → List String
  | Except.ok c => c.map Prod.fst
  | Except.error _ => []

/-- The error a computation threw, if it threw. -/
def raisedError : Except JSError Client → Option JSError
  | Except.error e => some e
  | Except.ok _ => none

/-- Whether an error is an instance of the EndpointFactoryError class the
specification describes. -/
def isEndpointFactoryError : JSError → Bool
  | JSError.endpointFactoryError _ => true
  | _ => false

/-- The registrations one interceptor slot contributes. -/
def optRegs : Option InterceptorPair → List (Option Hook × Option Hook)
  | none => []
  | some p => [(p.onFulfilled, p.onRejected)]

/-! ### Concrete fixtures used to instantiate hypotheses -/

/-- A users service as in the README example, with one endpoint. -/
def svcUsers : ApiService :=
  { name := "users", baseUrl := "/users", config := [], interceptors := none,
    build := fun _ => Except.ok [("getUsers", 1)] }

/-- A second service with a distinct name. -/
def svcPosts : ApiService :=
  { name := "posts", baseUrl := "/posts", config := [], interceptors := none,
    build := fun _ => Except.ok [("getPosts", 2)] }

/-- A client config whose caller-side mapping keys differ from the
service names. -/
def init1 : ApiClientConfig :=
  { config := none, interceptors := none,
    services := [("u", svcUsers), ("p", svcPosts)] }

/-- A service whose endpoint factory throws the raw value boom. -/
def svcBoom : ApiService :=
  { name := "boom", baseUrl := "", config := [], interceptors := none,
    build := fun _ => Except.error (JSError.raw "boom") }

/-- A service whose endpoint factory succeeds. -/
def svcGood : ApiService :=
  { name := "good", baseUrl := "/g", config := [], interceptors := none,
    build := fun _ => Except.ok [("ping", 3)] }

/-- An assembly holding only the throwing service. -/
def initBoom : ApiClientConfig :=
  { config := none, interceptors := none, services := [("boom", svcBoom)] }

/-- An assembly where a succeeding service precedes the throwing one. -/
def initMixed : ApiClientConfig :=
  { config := none, interceptors := none,
    services := [("g", svcGood), ("b", svcBoom)] }

/-- A constructor record whose name is empty. -/
def cfgNoName : ApiServiceConfig :=
  { name := "", baseUrl := none, config := none, interceptors := none,
    endpoints := fun _ => Except.ok [] }

/-- A constructor record with no baseUrl segment. -/
def cfgUsersDefault : ApiServiceConfig :=
  { name := "users", baseUrl := none, config := none, interceptors := none,
    endpoints := fun _ => Except.ok [] }

/-- The service the constructor stores for cfgUsersDefault. -/
def svcUsersDefault : ApiService :=
  { name := "users", baseUrl := "", config := [], interceptors := none,
    build := fun _ => Except.ok [] }

/-- Global interceptors carrying only onRejected hooks. -/
def giRejOnly : Option Interceptors :=
  some { request := some { onFulfilled := none, onRejected := some 1 },
         response := some { onFulfilled := none, onRejected := some 2 } }

/-- A service carrying only onRejected hooks in both slots. -/
def svcRejOnly : ApiService :=
  { name := "s", baseUrl := "", config := [],
    interceptors :=
      some { request := some { onFulfilled := none, onRejected := some 3 },
             response := some { onFulfilled := none, onRejected := some 4 } },
    build := fun _ => Except.ok [] }

/-- Global interceptors present while the service defines none. -/
def giOnly : Option Interceptors :=
  some { request := some { onFulfilled := some 9, onRejected := none }, response := none }

/-- A service with no interceptors of its own. -/
def svcPlain : ApiService :=
  { name := "plain", baseUrl := "/p", config := [], interceptors := none,
    build := fun _ => Except.ok [("go", 2)] }

/-- The service client assembled for svcPlain under giOnly. -/
def objPlain : ObjMap :=
  match buildService "https://x" [] giOnly svcPlain with
  | Except.ok o => o
  | Except.error _ => []

/-! ### Association-list lemmas -/

theorem getField_setField {α : Type} (m : List (String × α)) (k0 k : String) (v : α) :
    getField (setField m k0 v) k = if k0 = k then some v else getField m k := by
  induction m with
  | nil =>
    by_cases h : k0 = k <;> simp [setField, getField, h]
  | cons hd tl ih =>
    obtain ⟨k1, v1⟩ := hd
    by_cases h1 : k1 = k0
    · subst h1
      by_cases h2 : k1 = k <;> simp [setField, getField, h2]
    · by_cases h2 : k1 = k
      · subst h2
        have h3 : ¬ k0 = k1 := fun h => h1 h.symm
        simp [setField, getField, h1, h3]
      · simp [setField, getField, h1, h2, ih]

theorem mapFst_setField_of_absent {α : Type} (m : List (String × α)) (k : String) (v : α)
    (h : getField m k = none) :
    (setField m k v).map Prod.fst = m.map Prod.fst ++ [k] := by
  induction m with
  | nil => simp [setField]
  | cons hd tl ih =>
    obtain ⟨k1, v1⟩ := hd
    by_cases h1 : k1 = k
    · simp [getField, h1] at h
    · simp [getField, h1] at h
      simp [setField, h1, ih h]

theorem getField_spreadInto (src : Config) : ∀ (m : Config) (k : String),
    getField (spreadInto m src) k =
      match lookupLast src k with
      | some v => some v
      | none => getField m k := by
  induction src with
  | nil => intro m k; simp [spreadInto, lookupLast]
  | cons hd tl ih =>
    intro m k
    obtain ⟨k1, v1⟩ := hd
    have hstep : spreadInto m ((k1, v1) :: tl) = spreadInto (setField m k1 v1) tl := rfl
    rw [hstep, ih]
    cases htl : lookupLast tl k with
    | some v => simp [lookupLast, htl]
    | none =>
      by_cases h1 : k1 = k <;>
        simp [lookupLast, htl, h1, getField_setField]

theorem registerIxs_config (i : AxiosInstance) (ixs : Option Interceptors) :
    (registerIxs i ixs).config = i.config := by
  cases hreq : ixs.bind Interceptors.request <;>
    cases hresp : ixs.bind Interceptors.response <;>
      simp [registerIxs, hreq, hresp, AxiosInstance.useRequest, AxiosInstance.useResponse]

theorem registerIxs_request (i : AxiosInstance) (ixs : Option Interceptors) :
    (registerIxs i ixs).requestHandlers =
      i.requestHandlers ++ optRegs (ixs.bind Interceptors.request) := by
  cases hreq : ixs.bind Interceptors.request <;>
    cases hresp : ixs.bind Interceptors.response <;>
      simp [registerIxs, hreq, hresp, AxiosInstance.useRequest, AxiosInstance.useResponse, optRegs]

theorem registerIxs_response (i : AxiosInstance) (ixs : Option Interceptors) :
    (registerIxs i ixs).responseHandlers =
      i.responseHandlers ++ optRegs (ixs.bind Interceptors.response) := by
  cases hreq : ixs.bind Interceptors.request <;>
    cases hresp : ixs.bind Interceptors.response <;>
      simp [registerIxs, hreq, hresp, AxiosInstance.useRequest, AxiosInstance.useResponse, optRegs]

theorem setupInstance_config (rootUrl : String) (globalConfig : Config)
    (globalIxs : Option Interceptors) (service : ApiService) :
    (setupInstance rootUrl globalConfig globalIxs service).config =
      serviceAxiosConfig rootUrl globalConfig service := by
  simp [setupInstance, registerIxs_config, axiosCreate]

theorem setupInstance_request (rootUrl : String) (globalConfig : Config)
    (globalIxs : Option Interceptors) (service : ApiService) :
    (setupInstance rootUrl globalConfig globalIxs service).requestHandlers =
      optRegs (globalIxs.bind Interceptors.request) ++
        optRegs (service.interceptors.bind Interceptors.request) := by
  simp [setupInstance, registerIxs_request, axiosCreate]

theorem setupInstance_response (rootUrl : String) (globalConfig : Config)
    (globalIxs : Option Interceptors) (service : ApiService) :
    (setupInstance rootUrl globalConfig globalIxs service).responseHandlers =
      optRegs (globalIxs.bind Interceptors.response) ++
        optRegs (service.interceptors.bind Interceptors.response) := by
  simp [setupInstance, registerIxs_response, axiosCreate]

theorem mkSvcClient_metadata (endpoints : EndpointMap) (service : ApiService)
    (axiosConfig : Config) (handle : AxiosInstance) :
    getField (mkSvcClient endpoints service axiosConfig handle) "baseUrl" =
        some (FieldVal.str service.baseUrl)
      ∧ getField (mkSvcClient endpoints service axiosConfig handle) "config" =
        some (FieldVal.cfg axiosConfig)
      ∧ getField (mkSvcClient endpoints service axiosConfig handle) "interceptors" =
        some (FieldVal.ixs service.interceptors)
      ∧ getField (mkSvcClient endpoints service axiosConfig handle) "instance" =
        some (FieldVal.inst handle) := by
  refine ⟨?_, ?_, ?_, ?_⟩ <;> simp [mkSvcClient, getField_setField]

theorem buildService_ok (rootUrl : String) (globalConfig : Config)
    (globalIxs : Option Interceptors) (service : ApiService) (endpoints : EndpointMap)
    (h : service.build (setupInstance rootUrl globalConfig globalIxs service) =
      Except.ok endpoints) :
    buildService rootUrl globalConfig globalIxs service =
      Except.ok (mkSvcClient endpoints service (serviceAxiosConfig rootUrl globalConfig service)
        (setupInstance rootUrl globalConfig globalIxs service)) := by
  simp [buildService, h]

theorem buildService_error (rootUrl : String) (globalConfig : Config)
    (globalIxs : Option Interceptors) (service : ApiService) (e : JSError)
    (h : service.build (setupInstance rootUrl globalConfig globalIxs service) =
      Except.error e) :
    buildService rootUrl globalConfig globalIxs service = Except.error e := by
  simp [buildService, h]

theorem buildService_error_inv (rootUrl : String) (globalConfig : Config)
    (globalIxs : Option Interceptors) (service : ApiService) (e : JSError)
    (h : buildService rootUrl globalConfig globalIxs service = Except.error e) :
    service.build (setupInstance rootUrl globalConfig globalIxs service) = Except.error e := by
  revert h
  unfold buildService
  cases hb : service.build (setupInstance rootUrl globalConfig globalIxs service) <;>
    simp [hb]

theorem assembleLoop_error_inv (rootUrl : String) (globalConfig : Config)
    (globalIxs : Option Interceptors) (e : JSError) :
    ∀ (services : List (String × ApiService)) (acc : Client),
      assembleLoop rootUrl globalConfig globalIxs services acc = Except.error e →
      ∃ kv ∈ services,
        kv.2.build (setupInstance rootUrl globalConfig globalIxs kv.2) = Except.error e := by
  intro services
  induction services with
  | nil => intro acc h; simp [assembleLoop] at h
  | cons kv rest ih =>
    intro acc h
    revert h
    unfold assembleLoop
    cases hb : buildService rootUrl globalConfig globalIxs kv.2 with
    | error e0 =>
      intro h
      simp at h
      subst h
      exact ⟨kv, List.mem_cons_self kv rest, buildService_error_inv _ _ _ _ _ hb⟩
    | ok svc =>
      intro h
      obtain ⟨kv2, hmem, hkv2⟩ := ih _ h
      exact ⟨kv2, List.mem_cons_of_mem kv hmem, hkv2⟩

theorem assembleLoop_error_of_failure (rootUrl : String) (globalConfig : Config)
    (globalIxs : Option Interceptors) :
    ∀ (services : List (String × ApiService)) (acc : Client),
      (∃ kv ∈ services,
        (kv.2.build (setupInstance rootUrl globalConfig globalIxs kv.2)).isOk = false) →
      ∃ e, assembleLoop rootUrl globalConfig globalIxs services acc = Except.error e := by
  intro services
  induction services with
  | nil => intro acc h; simp at h
  | cons kv rest ih =>
    intro acc h
    unfold assembleLoop
    cases hb : buildService rootUrl globalConfig globalIxs kv.2 with
    | error e0 => exact ⟨e0, rfl⟩
    | ok svc =>
      apply ih
      obtain ⟨kv2, hmem, hkv2⟩ := h
      rcases List.mem_cons.mp hmem with heq | hmem2
      · exfalso
        subst heq
        cases hbuild : kv2.2.build (setupInstance rootUrl globalConfig globalIxs kv2.2) with
        | error e1 =>
          rw [buildService_error rootUrl globalConfig globalIxs kv2.2 e1 hbuild] at hb
          simp at hb
        | ok eps =>
          rw [hbuild] at hkv2
          simp [Except.isOk, Except.toBool] at hkv2
      · exact ⟨kv2, hmem2, hkv2⟩

theorem assembleLoop_keys (rootUrl : String) (globalConfig : Config)
    (globalIxs : Option Interceptors) :
    ∀ (services : List (String × ApiService)) (acc : Client) (out : Client),
      assembleLoop rootUrl globalConfig globalIxs services acc = Except.ok out →
      (services.map (fun kv => kv.2.name)).Nodup →
      (∀ kv ∈ services, getField acc kv.2.name = none) →
      out.map Prod.fst = acc.map Prod.fst ++ services.map (fun kv => kv.2.name) := by
  intro services
  induction services with
  | nil =>
    intro acc out h _ _
    simp [assembleLoop] at h
    subst h
    simp
  | cons kv rest ih =>
    intro acc out h hnodup habs
    revert h
    unfold assembleLoop
    cases hb : buildService rootUrl globalConfig globalIxs kv.2 with
    | error e0 => intro h; simp at h
    | ok svc =>
      intro h
      have hname : getField acc kv.2.name = none := habs kv (List.mem_cons_self kv rest)
      rw [List.map_cons, List.nodup_cons] at hnodup
      have hnotin : kv.2.name ∉ rest.map (fun kv2 => kv2.2.name) := hnodup.1
      have habs2 : ∀ kv2 ∈ rest, getField (setField acc kv.2.name svc) kv2.2.name = none := by
        intro kv2 hmem
        rw [getField_setField]
        have hne : ¬ kv.2.name = kv2.2.name := by
          intro heq
          exact hnotin (heq ▸ List.mem_map_of_mem (fun kv3 => kv3.2.name) hmem)
        simp [hne]
        exact habs kv2 (List.mem_cons_of_mem kv hmem)
      have hnodup2 : (rest.map (fun kv2 => kv2.2.name)).Nodup := hnodup.2
      have := ih (setField acc kv.2.name svc) out h hnodup2 habs2
      rw [this, mapFst_setField_of_absent acc kv.2.name svc hname]
      simp

/-! ### Claim theorems -/

/-- C1: the effective configuration carried by the transport handle built
for a service equals the shallow top-level merge of the derived baseURL
entry, then the global config, then the service config, with later sources
winning on conflicting top-level keys. -/
theorem C1_effective_config (rootUrl : String) (globalConfig : Config)
    (globalIxs : Option Interceptors) (service : ApiService) (k : String) :
    getField (setupInstance rootUrl globalConfig globalIxs service).config k =
      match lookupLast service.config k with
      | some v => some v
      | none =>
        match lookupLast globalConfig k with
        | some v => some v
        | none =>
          if "baseURL" = k then some (JSValue.str (rootUrl ++ service.baseUrl)) else none := by
  rw [setupInstance_config]
  unfold serviceAxiosConfig
  rw [getField_spreadInto, getField_spreadInto]
  cases h1 : lookupLast service.config k <;>
    cases h2 : lookupLast globalConfig k <;>
      simp [h1, h2, getField]

/-- C2: interceptors are registered on the service handle in fixed
precedence, the global slot first and the service slot second, on both the
request and the response chains; both registrations are present when both
slots are, global first. -/
theorem C2_interceptor_order (rootUrl : String) (globalConfig : Config)
    (globalIxs : Option Interceptors) (service : ApiService) :
    (setupInstance rootUrl globalConfig globalIxs service).requestHandlers =
        optRegs (globalIxs.bind Interceptors.request) ++
          optRegs (service.interceptors.bind Interceptors.request)
      ∧ (setupInstance rootUrl globalConfig globalIxs service).responseHandlers =
        optRegs (globalIxs.bind Interceptors.response) ++
          optRegs (service.interceptors.bind Interceptors.response) :=
  ⟨setupInstance_request rootUrl globalConfig globalIxs service,
   setupInstance_response rootUrl globalConfig globalIxs service⟩

/-- C3: when the endpoint map contains a key colliding with a metadata
field, in particular the key config, the composed service client exposes
the metadata value under that key, not the endpoint function. -/
theorem C3_metadata_wins (endpoints : EndpointMap) (service : ApiService) (axCfg : Config)
    (handle : AxiosInstance) (hcol : "config" ∈ endpoints.map Prod.fst) :
    getField (mkSvcClient endpoints service axCfg handle) "config" = some (FieldVal.cfg axCfg)
      ∧ getField (mkSvcClient endpoints service axCfg handle) "baseUrl" =
        some (FieldVal.str service.baseUrl)
      ∧ getField (mkSvcClient endpoints service axCfg handle) "interceptors" =
        some (FieldVal.ixs service.interceptors)
      ∧ getField (mkSvcClient endpoints service axCfg handle) "instance" =
        some (FieldVal.inst handle) :=
  ⟨(mkSvcClient_metadata endpoints service axCfg handle).2.1,
   (mkSvcClient_metadata endpoints service axCfg handle).1,
   (mkSvcClient_metadata endpoints service axCfg handle).2.2.1,
   (mkSvcClient_metadata endpoints service axCfg handle).2.2.2⟩

/-- C3 witness: an endpoint map with the single key config loses that key
to the merged configuration. -/
theorem C3_witness :
    getField (mkSvcClient [("config", 7)] svcUsers [] (axiosCreate [])) "config" =
      some (FieldVal.cfg []) :=
  (C3_metadata_wins [("config", 7)] svcUsers [] (axiosCreate []) (by simp)).1

/-- C4 counterexample: the constructor accepts a record with an empty name
and succeeds, so no InvalidConfigError is raised. -/
theorem C4_counterexample :
    cfgNoName.name = "" ∧ (ApiService.ofConfig cfgNoName).isOk = true :=
  ⟨rfl, rfl⟩

/-- C4 amended: the constructor performs no validation at all: for every
configuration record, including one whose name is missing or empty,
construction succeeds synchronously with no side effects, storing the name
as given and defaulting baseUrl and config. -/
theorem C4_no_validation (cfg : ApiServiceConfig) :
    ApiService.ofConfig cfg = Except.ok
      { name := cfg.name, baseUrl := cfg.baseUrl.getD "", config := cfg.config.getD [],
        interceptors := cfg.interceptors, build := cfg.endpoints } :=
  rfl

/-- C5 counterexample: a factory throwing the raw value boom makes
createApiClient raise that raw value itself, which is not an
EndpointFactoryError. -/
theorem C5_counterexample :
    createApiClient "https://x" initBoom = Except.error (JSError.raw "boom")
      ∧ isEndpointFactoryError (JSError.raw "boom") = false :=
  ⟨rfl, rfl⟩

/-- C5 amended: createApiClient wraps nothing: every error it raises is
exactly the value some endpoint factory threw, propagated unchanged, and
assembly aborts. -/
theorem C5_error_unwrapped (rootUrl : String) (init : ApiClientConfig) (e : JSError)
    (h : createApiClient rootUrl init = Except.error e) :
    ∃ kv ∈ init.services,
      kv.2.build (setupInstance rootUrl (init.config.getD []) init.interceptors kv.2) =
        Except.error e :=
  assembleLoop_error_inv rootUrl (init.config.getD []) init.interceptors e init.services [] h

/-- C5 witness: on the boom assembly the raised error is traced back to
the boom factory unchanged. -/
theorem C5_witness :
    ∃ kv ∈ initBoom.services,
      kv.2.build (setupInstance "https://x" (initBoom.config.getD []) initBoom.interceptors kv.2) =
        Except.error (JSError.raw "boom") :=
  C5_error_unwrapped "https://x" initBoom (JSError.raw "boom") rfl

/-- C6: assembly is atomic: if any service endpoint factory fails during
assembly, createApiClient raises and returns no client value at all, so no
service, earlier ones included, appears in any returned value. -/
theorem C6_atomic_assembly (rootUrl : String) (init : ApiClientConfig)
    (h : ∃ kv ∈ init.services,
      (kv.2.build (setupInstance rootUrl (init.config.getD []) init.interceptors kv.2)).isOk =
        false) :
    ∃ e, createApiClient rootUrl init = Except.error e :=
  assembleLoop_error_of_failure rootUrl (init.config.getD []) init.interceptors init.services [] h

/-- C6 witness: with a succeeding service before a throwing one, assembly
raises and no partial client is produced. -/
theorem C6_witness : ∃ e, createApiClient "https://x" initMixed = Except.error e :=
  C6_atomic_assembly "https://x" initMixed
    ⟨("b", svcBoom),
     List.mem_cons_of_mem ("g", svcGood) (List.mem_cons_self ("b", svcBoom) []),
     rfl⟩

/-- C7: with pairwise-distinct service names, the returned client has
exactly one entry per input service, keyed by each descriptor name in
iteration order, independent of the caller-side mapping keys. -/
theorem C7_keys (rootUrl : String) (init : ApiClientConfig)
    (hnodup : (init.services.map (fun kv => kv.2.name)).Nodup)
    (hok : (createApiClient rootUrl init).isOk = true) :
    clientKeys (createApiClient rootUrl init) = init.services.map (fun kv => kv.2.name) := by
  cases hres : createApiClient rootUrl init with
  | error e =>
    rw [hres] at hok
    simp [Except.isOk, Except.toBool] at hok
  | ok out =>
    unfold createApiClient at hres
    have habs : ∀ kv ∈ init.services, getField ([] : Client) kv.2.name = none := by
      intro kv _
      rfl
    have hkeys := assembleLoop_keys rootUrl (init.config.getD []) init.interceptors init.services
      [] out hres hnodup habs
    simpa [clientKeys] using hkeys

/-- C7 witness: caller keys u and p produce a client keyed by the service
names users and posts. -/
theorem C7_witness :
    clientKeys (createApiClient "https://api.example.com" init1) =
      init1.services.map (fun kv => kv.2.name) :=
  C7_keys "https://api.example.com" init1 (by decide) rfl

/-- C8: a descriptor built with no segment stores the empty string and
derives rootUrl exactly as its base URL; in general the derived base URL
is plain string concatenation of rootUrl and the segment (absent overrides
of the baseURL key), while the exposed baseUrl metadata field is the
segment alone. -/
theorem C8_base_url (cfg : ApiServiceConfig) (s : ApiService) (rootUrl : String)
    (globalConfig : Config)
    (hok : ApiService.ofConfig cfg = Except.ok s)
    (hg : lookupLast globalConfig "baseURL" = none)
    (hs : lookupLast s.config "baseURL" = none) :
    (cfg.baseUrl = none →
      s.baseUrl = "" ∧
        getField (serviceAxiosConfig rootUrl globalConfig s) "baseURL" =
          some (JSValue.str rootUrl))
      ∧ getField (serviceAxiosConfig rootUrl globalConfig s) "baseURL" =
        some (JSValue.str (rootUrl ++ s.baseUrl))
      ∧ ∀ (endpoints : EndpointMap) (axCfg : Config) (handle : AxiosInstance),
          getField (mkSvcClient endpoints s axCfg handle) "baseUrl" =
            some (FieldVal.str s.baseUrl) := by
  have hmain : getField (serviceAxiosConfig rootUrl globalConfig s) "baseURL" =
      some (JSValue.str (rootUrl ++ s.baseUrl)) := by
    unfold serviceAxiosConfig
    rw [getField_spreadInto, getField_spreadInto, hs, hg]
    simp [getField]
  refine ⟨?_, hmain, ?_⟩
  · intro hnone
    have hsb : s.baseUrl = "" := by
      simp [ApiService.ofConfig] at hok
      rw [← hok, hnone]
      rfl
    refine ⟨hsb, ?_⟩
    rw [hmain, hsb]
    simp
  · intro endpoints axCfg handle
    exact (mkSvcClient_metadata endpoints s axCfg handle).1

/-- C8 witness: a users descriptor with no segment yields base URL equal
to the root URL exactly. -/
theorem C8_witness :
    getField (serviceAxiosConfig "https://api.example.com" [] svcUsersDefault) "baseURL" =
      some (JSValue.str "https://api.example.com") :=
  ((C8_base_url cfgUsersDefault svcUsersDefault "https://api.example.com" [] rfl rfl rfl).1
    rfl).2

/-- C9: an interceptor slot whose onFulfilled hook is absent while
onRejected is present is still registered: the absent fulfilled hook is
passed through as an absent value and the rejected hook appears in the
handle registration list, at both the global and the service level, on
both chains. -/
theorem C9_rejected_only (rootUrl : String) (globalConfig : Config)
    (globalIxs : Option Interceptors) (service : ApiService)
    (gp sp gq sq : InterceptorPair)
    (h1 : globalIxs.bind Interceptors.request = some gp) (h2 : gp.onFulfilled = none)
    (h3 : gp.onRejected.isSome = true)
    (h4 : service.interceptors.bind Interceptors.request = some sp) (h5 : sp.onFulfilled = none)
    (h6 : sp.onRejected.isSome = true)
    (h7 : globalIxs.bind Interceptors.response = some gq) (h8 : gq.onFulfilled = none)
    (h9 : gq.onRejected.isSome = true)
    (h10 : service.interceptors.bind Interceptors.response = some sq) (h11 : sq.onFulfilled = none)
    (h12 : sq.onRejected.isSome = true) :
    (setupInstance rootUrl globalConfig globalIxs service).requestHandlers =
        [(none, gp.onRejected), (none, sp.onRejected)]
      ∧ (setupInstance rootUrl globalConfig globalIxs service).responseHandlers =
        [(none, gq.onRejected), (none, sq.onRejected)] := by
  constructor
  · rw [setupInstance_request, h1, h4]
    simp [optRegs, h2, h5]
  · rw [setupInstance_response, h7, h10]
    simp [optRegs, h8, h11]

/-- C9 witness: rejected-only interceptor sets at both levels register all
four hooks with absent fulfilled slots. -/
theorem C9_witness :
    (setupInstance "https://x" [] giRejOnly svcRejOnly).requestHandlers =
        [(none, some 1), (none, some 3)]
      ∧ (setupInstance "https://x" [] giRejOnly svcRejOnly).responseHandlers =
        [(none, some 2), (none, some 4)] :=
  C9_rejected_only "https://x" [] giRejOnly svcRejOnly
    { onFulfilled := none, onRejected := some 1 } { onFulfilled := none, onRejected := some 3 }
    { onFulfilled := none, onRejected := some 2 } { onFulfilled := none, onRejected := some 4 }
    rfl rfl rfl rfl rfl rfl rfl rfl rfl rfl rfl rfl

/-- C10: the interceptors metadata field of an assembled service client is
exactly the descriptor service-level interceptor set, independent of any
global interceptors registered on the same handle, and it is the absent
value when the descriptor defines none. -/
theorem C10_exposed_interceptors (rootUrl : String) (globalConfig : Config)
    (globalIxs : Option Interceptors) (service : ApiService) (obj : ObjMap)
    (h : buildService rootUrl globalConfig globalIxs service = Except.ok obj) :
    getField obj "interceptors" = some (FieldVal.ixs service.interceptors) := by
  simp only [buildService] at h
  cases hbuild : service.build (setupInstance rootUrl globalConfig globalIxs service) with
  | error e =>
    rw [hbuild] at h
    simp at h
  | ok eps =>
    rw [hbuild] at h
    simp at h
    rw [← h]
    exact (mkSvcClient_metadata eps service (serviceAxiosConfig rootUrl globalConfig service)
      (setupInstance rootUrl globalConfig globalIxs service)).2.2.1

/-- C10 witness: with global interceptors registered and none on the
service, the exposed field is the absent value. -/
theorem C10_witness : getField objPlain "interceptors" = some (FieldVal.ixs none) :=
  C10_exposed_interceptors "https://x" [] giOnly svcPlain objPlain rfl

end Clyent
